import Mathlib

/-!
Verification development for the DeepTrust repository.

The definitions below are a shallow embedding, in Lean, of the trust-scoring,
classification-parsing, file-validation, ledger-contract and ledger-adapter
logic found in the sources (src/server/aiService.js, src/server/server.js,
src/server/fileService.js, src/server/blockchain.js and the Solidity contract
DeepTrustVerification shipped with src/scripts/deploy.cjs).  JavaScript
numbers are embedded as exact rationals, JavaScript exceptions as Except,
nullable results as Option, and the random draw of Math.random as an explicit
parameter in the half-open interval [0, 1).
-/

namespace DeepTrust

/-- Embedding of JavaScript Math.round on exact rationals: halves round
toward positive infinity, so Math.round q = floor (q + 1/2). -/
def jround (q : ℚ) : ℤ := ⌊q + 1/2⌋

/-- Embedding of the two-decimal rounding idiom Math.round (q * 100) / 100
used when the adapters publish probabilities. -/
def round2 (q : ℚ) : ℚ := (jround (q * 100) : ℚ) / 100

/-- Status tier shared by the server (strings verified / suspicious / fake)
and the contract enum VerificationStatus (Verified / Suspicious / Fake). -/
inductive VStatus
  | verified
  | suspicious
  | fake
deriving DecidableEq, Repr

/-- Function determineStatus from src/server/aiService.js (lines 163-167). -/
def determineStatus (trustScore : ℤ) : VStatus :=
  if 80 ≤ trustScore then VStatus.verified
  else if 50 ≤ trustScore then VStatus.suspicious
  else VStatus.fake

/-- Parsed analysis pair produced by parseClassificationResults: the published
aiProbability and realProbability fields. -/
structure ParsedAnalysis where
  aiProbability : ℚ
  realProbability : ℚ
deriving DecidableEq, Repr

/-- Result record of calculateTrustScore. -/
structure TrustScoreResult where
  score : ℤ
  confidence : ℤ
  isAIGenerated : Bool
deriving DecidableEq, Repr

/-- Function calculateTrustScore from src/server/aiService.js (lines 142-156):
trust score is the rounded real probability on a 0-100 scale, confidence grows
with the gap between the two probabilities. -/
def calculateTrustScore (analysis : ParsedAnalysis) : TrustScoreResult :=
  let trustScore := jround (analysis.realProbability * 100)
  let scoreDifference := |analysis.aiProbability - analysis.realProbability|
  let confidence := jround (50 + scoreDifference * 50)
  { score := trustScore
    confidence := confidence
    isAIGenerated := decide ((1 : ℚ)/2 < analysis.aiProbability) }

/-- Status-derivation block inside storeVerification of the contract
DeepTrustVerification (deploy.cjs bundle, lines 108-115). -/
def contractStatusOf (trustScore : ℕ) : VStatus :=
  if 80 ≤ trustScore then VStatus.verified
  else if 50 ≤ trustScore then VStatus.suspicious
  else VStatus.fake

/-- Struct Verification of the contract DeepTrustVerification.  Addresses are
embedded as naturals, uint256 values as naturals, strings as strings. -/
structure Verification where
  id : ℕ
  contentHash : String
  trustScore : ℕ
  aiMetadataHash : String
  timestamp : ℕ
  status : VStatus
  verifier : ℕ
deriving DecidableEq, Repr

/-- State of the contract DeepTrustVerification: the verifications array, the
contentHistory mapping, the owner and the authorizedVerifiers mapping. -/
structure ContractState where
  verifications : List Verification
  contentHistory : String → List ℕ
  owner : ℕ
  authorizedVerifiers : ℕ → Bool

/-- Function storeVerification of the contract (deploy.cjs bundle, lines
99-133) together with its onlyVerifier modifier (lines 78-81): a revert is an
error value, a successful call returns the new state and the new id. -/
def storeVerification (st : ContractState) (sender : ℕ) (contentHash : String)
    (trustScore : ℕ) (aiMetadataHash : String) (timestamp : ℕ) :
    Except String (ContractState × ℕ) :=
  if st.authorizedVerifiers sender = true ∨ sender = st.owner then
    if trustScore ≤ 100 then
      let newId := st.verifications.length
      let newVerification : Verification :=
        { id := newId
          contentHash := contentHash
          trustScore := trustScore
          aiMetadataHash := aiMetadataHash
          timestamp := timestamp
          status := contractStatusOf trustScore
          verifier := sender }
      Except.ok
        ({ st with
            verifications := st.verifications ++ [newVerification]
            contentHistory := fun h =>
              if h = contentHash then st.contentHistory h ++ [newId]
              else st.contentHistory h },
         newId)
    else Except.error "Score must be 0-100"
  else Except.error "Not authorized verifier"

/-- View function getVerificationCount of the contract (lines 154-156). -/
def getVerificationCount (st : ContractState) : ℕ :=
  st.verifications.length

/-- View function getLatestVerification of the contract (lines 162-166):
requires a non-empty history for the hash, then returns the entry at the last
recorded id. -/
def getLatestVerification (st : ContractState) (contentHash : String) :
    Except String Verification :=
  let history := st.contentHistory contentHash
  if history.isEmpty then Except.error "No history for this content"
  else
    match st.verifications.get? (history.getLastD 0) with
    | some v => Except.ok v
    | none => Except.error "index out of bounds"

/-- Function getVerificationByHash from src/server/blockchain.js (lines
242-265): the whole contract read sits inside a try/catch that converts any
failure, including an uninitialized contract handle, into a null result. -/
def getVerificationByHash (contractInitialized : Bool) (st : ContractState)
    (contentHash : String) : Option Verification :=
  if contractInitialized then
    match getLatestVerification st contentHash with
    | Except.ok v => some v
    | Except.error _ => none
  else none

/-- Fixture: empty contract state whose owner is address 0. -/
def st0 : ContractState :=
  { verifications := []
    contentHistory := fun _ => []
    owner := 0
    authorizedVerifiers := fun _ => false }

/-- Constant CONFIG.maxFileSize from src/server/fileService.js: 50 MiB. -/
def maxFileSize : ℕ := 50 * 1024 * 1024

/-- Constant CONFIG.allowedMimeTypes from src/server/fileService.js
(lines 19-29). -/
def allowedMimeTypes : List String :=
  ["image/jpeg", "image/png", "image/gif", "image/webp",
   "video/mp4", "video/webm", "audio/mpeg", "audio/wav", "audio/mp3"]

/-- The image entries of the allow-list, used to state the literal reading of
the specification phrase about supported image types. -/
def imageAllowedMimeTypes : List String :=
  ["image/jpeg", "image/png", "image/gif", "image/webp"]

/-- Return shape of validateFile. -/
structure ValidationResult where
  valid : Bool
  detectedType : Option String
  errorMsg : Option String
deriving DecidableEq, Repr

/-- Function validateFile from src/server/fileService.js (lines 52-92).  The
buffer is represented by its length and the fileTypeFromBuffer magic-byte
sniffing by its result (none when the type cannot be determined).  A mismatch
between the declared and the detected MIME type is only logged. -/
def validateFile (bufferLength : ℕ) (detectedType : Option String)
    (originalMimeType : String) : ValidationResult :=
  if maxFileSize < bufferLength then
    { valid := false, detectedType := none, errorMsg := some "File too large" }
  else
    match detectedType with
    | none =>
      { valid := false, detectedType := none
        errorMsg := some "Could not determine file type from content" }
    | some mime =>
      if mime ∉ allowedMimeTypes then
        { valid := false, detectedType := some mime
          errorMsg := some "File type is not allowed" }
      else
        let _ := originalMimeType
        { valid := true, detectedType := some mime, errorMsg := none }

/-- One classifier entry: a label together with its score. -/
structure LabelScore where
  label : String
  score : ℚ
deriving DecidableEq, Repr

/-- Check that the pattern occurs at the head of the character list. -/
def leadMatch : List Char → List Char → Bool
  | [], _ => true
  | _ :: _, [] => false
  | p :: ps, c :: cs => p == c && leadMatch ps cs

/-- Check that the pattern occurs somewhere inside the character list; this is
the embedding of the JavaScript String.includes test. -/
def hasSub (pat : List Char) : List Char → Bool
  | [] => leadMatch pat []
  | c :: cs => leadMatch pat (c :: cs) || hasSub pat cs

/-- Lower-cased character list of a label, the label.toLowerCase() step. -/
def labelLower (l : String) : List Char :=
  l.data.map Char.toLower

/-- True when the lower-cased label contains one of the keywords. -/
def matchesAny (label : List Char) (keys : List String) : Bool :=
  keys.any (fun k => hasSub k.data label)

/-- Keywords the server.js parser treats as the AI polarity (lines 771-778 of
the src/server/server.js bundle). -/
def aiKeywords : List String :=
  ["artificial", "ai", "fake", "generated", "synthetic"]

/-- Keywords the server.js parser treats as the real polarity. -/
def realKeywords : List String :=
  ["human", "real", "authentic", "natural", "photo"]

/-- Keywords of the AI polarity in the src/server/aiService.js variant of the
parser (line 107), which lacks the synthetic keyword. -/
def aiKeywordsAi : List String :=
  ["artificial", "ai", "fake", "generated"]

/-- Keywords of the real polarity in the src/server/aiService.js variant of
the parser (line 109), which lacks the photo keyword. -/
def realKeywordsAi : List String :=
  ["human", "real", "authentic", "natural"]

/-- Intermediate aiScore and realScore pair of the parser. -/
structure ParsedScores where
  aiScore : ℚ
  realScore : ℚ
deriving DecidableEq, Repr

/-- Keyword-matching accumulation loop of parseClassificationResults: each
entry raises, via max, the score of the polarity its label matches, AI
keywords checked first. -/
def scanWith (aiKeys realKeys : List String) :
    List LabelScore → ParsedScores → ParsedScores
  | [], acc => acc
  | r :: rest, acc =>
    if matchesAny (labelLower r.label) aiKeys then
      scanWith aiKeys realKeys rest { acc with aiScore := max acc.aiScore r.score }
    else if matchesAny (labelLower r.label) realKeys then
      scanWith aiKeys realKeys rest { acc with realScore := max acc.realScore r.score }
    else scanWith aiKeys realKeys rest acc

/-- Scan loop of the src/server/server.js parser. -/
def scanScores (results : List LabelScore) : ParsedScores :=
  scanWith aiKeywords realKeywords results { aiScore := 0, realScore := 0 }

/-- Scan loop of the src/server/aiService.js parser. -/
def scanScoresAi (results : List LabelScore) : ParsedScores :=
  scanWith aiKeywordsAi realKeywordsAi results { aiScore := 0, realScore := 0 }

/-- Embedding of the JavaScript value-or-default idiom v or-else d applied to
a numeric score: 0 is falsy, so a zero score falls back to the default. -/
def jsOr (v d : ℚ) : ℚ := if v = 0 then d else v

/-- First-two fallback of the src/server/server.js parser (lines 792-797): if
no label matched either polarity and at least two entries came back, the first
entry is taken as the AI score and the second as the real score, a zero score
falling back to one half. -/
def firstTwoFallback (results : List LabelScore) (s : ParsedScores) :
    ParsedScores :=
  if s.aiScore = 0 ∧ s.realScore = 0 ∧ 2 ≤ results.length then
    { aiScore := jsOr ((results.getD 0 { label := "", score := 0 }).score) (1/2)
      realScore := jsOr ((results.getD 1 { label := "", score := 0 }).score) (1/2) }
  else s

/-- Tolerance renormalisation step of the parser: when the total is positive
and differs from 1 by more than one hundredth, both scores are divided by the
total. -/
def normalizeTol (s : ParsedScores) : ParsedScores :=
  if 0 < s.aiScore + s.realScore ∧ 1/100 < |s.aiScore + s.realScore - 1| then
    { aiScore := s.aiScore / (s.aiScore + s.realScore),
      realScore := s.realScore / (s.aiScore + s.realScore) }
  else s

/-- Complement-inference step of the parser: when exactly one polarity carries
a positive score, the other is set to its complement. -/
def inferComplement (s : ParsedScores) : ParsedScores :=
  if 0 < s.aiScore ∧ s.realScore = 0 then
    { s with realScore := 1 - s.aiScore }
  else if 0 < s.realScore ∧ s.aiScore = 0 then
    { s with aiScore := 1 - s.realScore }
  else s

/-- Pre-rounding score pair computed by parseClassificationResults of
src/server/server.js (lines 749-822): keyword scan, first-two fallback,
tolerance renormalisation, complement inference. -/
def parseScoresPre (results : List LabelScore) : ParsedScores :=
  inferComplement (normalizeTol (firstTwoFallback results (scanScores results)))

/-- Function parseClassificationResults of src/server/server.js: the published
pair is the pre-rounding pair rounded to two decimals. -/
def parseClassificationResults (results : List LabelScore) : ParsedAnalysis :=
  let s := parseScoresPre results
  { aiProbability := round2 s.aiScore, realProbability := round2 s.realScore }

/-- Pre-rounding score pair of the src/server/aiService.js variant of the
parser (lines 95-134), which has no first-two fallback. -/
def parseScoresPreAi (results : List LabelScore) : ParsedScores :=
  inferComplement (normalizeTol (scanScoresAi results))

/-- Function parseClassificationResults of src/server/aiService.js. -/
def parseClassificationResultsAi (results : List LabelScore) : ParsedAnalysis :=
  let s := parseScoresPreAi results
  { aiProbability := round2 s.aiScore, realProbability := round2 s.realScore }

/-- Outcome of one classifyWithRetry call as seen by analyzeImage: either the
classifier returned a label/score list, or the call failed (after retries on
transient errors, or at once on an unrecoverable error). -/
inductive ModelOutcome
  | ok (results : List LabelScore)
  | failed (msg : String)
deriving DecidableEq, Repr

/-- Environment of one analyzeImage run: whether a HuggingFace credential is
configured, the outcome of the primary and of the fallback model call, and
the Math.random draw in [0, 1) consumed by the mock path. -/
structure AIEnv where
  hasApiKey : Bool
  primary : ModelOutcome
  fallback : ModelOutcome
  rand : ℚ

/-- Object returned by analyzeImage and generateMockAnalysis of
src/server/aiService.js; the analysis sub-object is flattened into the
aiProbability, realProbability and modelUsed fields, and the real-analysis
return value carries no isMock field, embedded as isMock false. -/
structure AnalysisResult where
  trustScore : ℤ
  confidence : ℤ
  isAIGenerated : Bool
  status : VStatus
  aiProbability : ℚ
  realProbability : ℚ
  modelUsed : String
  isMock : Bool
deriving DecidableEq, Repr

/-- Function generateMockAnalysis from src/server/aiService.js (lines
231-251): the draw rand of Math.random is scaled into an aiProbability below
two fifths, biased toward real. -/
def generateMockAnalysis (reason : String) (rand : ℚ) : AnalysisResult :=
  let aiP := rand * (2/5)
  let realP := 1 - aiP
  let trustScore := jround (realP * 100)
  let confidence := jround (50 + |aiP - realP| * 50)
  { trustScore := trustScore
    confidence := confidence
    isAIGenerated := decide ((1 : ℚ)/2 < aiP)
    status := determineStatus trustScore
    aiProbability := round2 aiP
    realProbability := round2 realP
    modelUsed := "mock-" ++ reason
    isMock := true }

/-- Constant CONFIG.primaryModel of src/server/aiService.js. -/
def primaryModel : String := "umm-maybe/AI-image-detector"

/-- Constant CONFIG.fallbackModel of src/server/aiService.js. -/
def fallbackModel : String := "Organika/sdxl-detector"

/-- Tail of analyzeImage after a successful classification: parse the results,
derive the trust score and the status, and assemble the response. -/
def finishAnalysis (results : List LabelScore) (modelUsed : String) :
    AnalysisResult :=
  let analysis := parseClassificationResultsAi results
  let ts := calculateTrustScore analysis
  { trustScore := ts.score
    confidence := ts.confidence
    isAIGenerated := ts.isAIGenerated
    status := determineStatus ts.score
    aiProbability := analysis.aiProbability
    realProbability := analysis.realProbability
    modelUsed := modelUsed
    isMock := false }

/-- Function analyzeImage from src/server/aiService.js (lines 174-224): with
no credential the mock path is taken at once; otherwise the primary model is
tried, on its failure the fallback model, and when both fail the mock path is
the last resort. -/
def analyzeImage (env : AIEnv) : AnalysisResult :=
  if env.hasApiKey = false then generateMockAnalysis "no-api-key" env.rand
  else
    match env.primary with
    | ModelOutcome.ok results => finishAnalysis results primaryModel
    | ModelOutcome.failed _ =>
      match env.fallback with
      | ModelOutcome.ok results => finishAnalysis results fallbackModel
      | ModelOutcome.failed _ => generateMockAnalysis "fallback-mock" env.rand

/-- Pipeline position after the classification step. -/
inductive PipelineState
  | classified (r : AnalysisResult)
  | errored (msg : String)
deriving DecidableEq, Repr

/-- Modelled from the spec: the verification-pipeline orchestrator (spec
section 4.5) is not among the sources under verification, only the adapters it
calls are.  Per the spec, the hashed-to-classified transition runs the
classification adapter; an exception escaping the adapter (a hard failure) is
fatal and moves the pipeline to the errored state, while a returned analysis,
synthetic or not, lets the pipeline continue. -/
def classifiedStep (outcome : Except String AnalysisResult) : PipelineState :=
  match outcome with
  | Except.ok r => PipelineState.classified r
  | Except.error e => PipelineState.errored e

/-- Fixture: an environment with no credential and draw one half. -/
def envW : AIEnv :=
  { hasApiKey := false
    primary := ModelOutcome.failed "x"
    fallback := ModelOutcome.failed "y"
    rand := 1/2 }

/-- Fixture: concrete label/score list with both polarities present. -/
def resW : List LabelScore :=
  [{ label := "artificial", score := 9/10 }, { label := "human", score := 1/10 }]

/-- Transaction receipt of a successful on-chain write, as consumed by
anchorVerification. -/
structure TxResult where
  txHash : String
  blockNumber : ℕ
deriving DecidableEq, Repr

/-- Result object of the ledger-anchoring adapter: the real path carries no
isMock field (embedded false), the mock path sets it. -/
structure AnchorResult where
  txHash : String
  blockNumber : ℕ
  isMock : Bool
deriving DecidableEq, Repr

/-- Constant CONFIG.retryDelay of src/server/blockchain.js. -/
def retryDelay : ℕ := 2000

/-- Function anchorVerification from src/server/blockchain.js (lines 147-209):
guard on the signer, then the retry loop for attempt = 1 to CONFIG.maxRetries
= 3, unrolled here since the bound is a constant.  After a failed attempt
below the bound the loop sleeps retryDelay * attempt; the returned list
records those backoff delays.  Exhaustion raises a terminal error carrying
the last failure message. -/
def anchorVerification (configured : Bool)
    (attempts : ℕ → Except String TxResult) :
    Except String (TxResult × List ℕ) :=
  if configured = false then
    Except.error "Blockchain not configured: missing CONTRACT_ADDRESS or PRIVATE_KEY"
  else
    match attempts 1 with
    | Except.ok r => Except.ok (r, [])
    | Except.error _ =>
      match attempts 2 with
      | Except.ok r => Except.ok (r, [retryDelay * 1])
      | Except.error _ =>
        match attempts 3 with
        | Except.ok r => Except.ok (r, [retryDelay * 1, retryDelay * 2])
        | Except.error e3 =>
          Except.error ("Blockchain anchoring failed after 3 attempts: " ++ e3)

/-- Function generateMockResult from src/server/blockchain.js (lines 305-315):
the random transaction hash and the random block-number draw below one million
are passed in explicitly; the block number is offset by one million. -/
def generateMockResult (randomTxHash : String) (randomBlockDraw : ℕ) :
    AnchorResult :=
  { txHash := randomTxHash
    blockNumber := randomBlockDraw + 1000000
    isMock := true }

/-- Modelled from the spec: the anchoring step of the pipeline (spec sections
4.4 and 4.5) is not among the sources under verification.  Per the spec, a
real write happens only when both the wallet credential and the contract
address are configured; absent either, the synthetic proof is substituted
without attempting any network call. -/
def anchorStep (hasWallet hasContractAddress : Bool)
    (attempts : ℕ → Except String TxResult)
    (mockTxHash : String) (mockBlockDraw : ℕ) :
    Except String (AnchorResult × List ℕ) :=
  if hasWallet && hasContractAddress then
    match anchorVerification true attempts with
    | Except.ok (r, delays) =>
      Except.ok
        ({ txHash := r.txHash, blockNumber := r.blockNumber, isMock := false },
         delays)
    | Except.error e => Except.error e
  else Except.ok (generateMockResult mockTxHash mockBlockDraw, [])

/-- Fixture: a receipt used by the anchoring witness. -/
def txW : TxResult := { txHash := "0xabc", blockNumber := 5 }

/-- Fixture: attempts that fail twice and succeed on the third try. -/
def attW : ℕ → Except String TxResult :=
  fun n => if n = 3 then Except.ok txW else Except.error "boom"

/-! Helper lemmas about the rounding embedding. -/

theorem jround_mono {q r : ℚ} (h : q ≤ r) : jround q ≤ jround r :=
  Int.floor_le_floor (by linarith)

theorem jround_intCast (n : ℤ) : jround (n : ℚ) = n := by
  unfold jround
  rw [Int.floor_int_add]
  norm_num [Int.floor_eq_iff]

theorem le_jround {n : ℤ} {q : ℚ} (h : (n : ℚ) ≤ q) : n ≤ jround q := by
  unfold jround
  exact Int.le_floor.mpr (by linarith)

theorem jround_le {n : ℤ} {q : ℚ} (h : q ≤ (n : ℚ)) : jround q ≤ n := by
  calc jround q ≤ jround (n : ℚ) := jround_mono h
    _ = n := jround_intCast n

theorem round2_nonneg {q : ℚ} (h : 0 ≤ q) : 0 ≤ round2 q := by
  unfold round2
  apply div_nonneg _ (by norm_num)
  have h1 : (0 : ℤ) ≤ jround (q * 100) := le_jround (by push_cast; linarith)
  exact_mod_cast h1

theorem round2_le_one {q : ℚ} (h : q ≤ 1) : round2 q ≤ 1 := by
  unfold round2
  rw [div_le_one (by norm_num)]
  have h1 : jround (q * 100) ≤ (100 : ℤ) := jround_le (by push_cast; linarith)
  exact_mod_cast h1

theorem round2_mono {q r : ℚ} (h : q ≤ r) : round2 q ≤ round2 r := by
  unfold round2
  apply div_le_div_of_nonneg_right ?_ (by norm_num)
  exact_mod_cast jround_mono (by linarith)

/-! Helper lemmas about the classification parser. -/

theorem jsOr_half_bounds {v : ℚ} (h0 : 0 ≤ v) (h1 : v ≤ 1) :
    0 ≤ jsOr v (1/2) ∧ jsOr v (1/2) ≤ 1 := by
  unfold jsOr
  split_ifs
  · exact ⟨by norm_num, by norm_num⟩
  · exact ⟨h0, h1⟩

theorem scanWith_bounds (aiKeys realKeys : List String)
    (results : List LabelScore) (acc : ParsedScores)
    (hs : ∀ r ∈ results, 0 ≤ r.score ∧ r.score ≤ 1)
    (hacc : 0 ≤ acc.aiScore ∧ acc.aiScore ≤ 1 ∧
      0 ≤ acc.realScore ∧ acc.realScore ≤ 1) :
    0 ≤ (scanWith aiKeys realKeys results acc).aiScore ∧
    (scanWith aiKeys realKeys results acc).aiScore ≤ 1 ∧
    0 ≤ (scanWith aiKeys realKeys results acc).realScore ∧
    (scanWith aiKeys realKeys results acc).realScore ≤ 1 := by
  induction results generalizing acc with
  | nil => simpa [scanWith] using hacc
  | cons r rest ih =>
    have hr := hs r (List.mem_cons_self r rest)
    have hrest : ∀ x ∈ rest, 0 ≤ x.score ∧ x.score ≤ 1 :=
      fun x hx => hs x (List.mem_cons_of_mem r hx)
    simp only [scanWith]
    split_ifs
    · exact ih _ hrest
        ⟨le_max_of_le_left hacc.1, max_le hacc.2.1 hr.2, hacc.2.2.1, hacc.2.2.2⟩
    · exact ih _ hrest
        ⟨hacc.1, hacc.2.1, le_max_of_le_left hacc.2.2.1, max_le hacc.2.2.2 hr.2⟩
    · exact ih _ hrest hacc

theorem firstTwoFallback_bounds (results : List LabelScore) (s : ParsedScores)
    (hs : ∀ r ∈ results, 0 ≤ r.score ∧ r.score ≤ 1)
    (hb : 0 ≤ s.aiScore ∧ s.aiScore ≤ 1 ∧ 0 ≤ s.realScore ∧ s.realScore ≤ 1) :
    0 ≤ (firstTwoFallback results s).aiScore ∧
    (firstTwoFallback results s).aiScore ≤ 1 ∧
    0 ≤ (firstTwoFallback results s).realScore ∧
    (firstTwoFallback results s).realScore ≤ 1 := by
  unfold firstTwoFallback
  split_ifs with h
  · obtain ⟨-, -, hlen⟩ := h
    cases results with
    | nil => simp at hlen
    | cons a t =>
      cases t with
      | nil => simp at hlen
      | cons b rest =>
        have ha := hs a (List.mem_cons_self a (b :: rest))
        have hb2 := hs b (List.mem_cons_of_mem a (List.mem_cons_self b rest))
        have h1 := jsOr_half_bounds ha.1 ha.2
        have h2 := jsOr_half_bounds hb2.1 hb2.2
        simp only [List.getD_cons_zero, List.getD_cons_succ]
        exact ⟨h1.1, h1.2, h2.1, h2.2⟩
  · exact hb

theorem normalizeTol_bounds_sum (t : ParsedScores)
    (hb : 0 ≤ t.aiScore ∧ t.aiScore ≤ 1 ∧ 0 ≤ t.realScore ∧ t.realScore ≤ 1) :
    (0 ≤ (normalizeTol t).aiScore ∧ (normalizeTol t).aiScore ≤ 1 ∧
     0 ≤ (normalizeTol t).realScore ∧ (normalizeTol t).realScore ≤ 1) ∧
    ((normalizeTol t).aiScore + (normalizeTol t).realScore = 0 ∨
     |(normalizeTol t).aiScore + (normalizeTol t).realScore - 1| ≤ 1/100) := by
  obtain ⟨ha0, ha1, hr0, hr1⟩ := hb
  unfold normalizeTol
  split_ifs with hn
  · obtain ⟨hT, -⟩ := hn
    have hsum : t.aiScore / (t.aiScore + t.realScore) +
        t.realScore / (t.aiScore + t.realScore) = 1 := by
      field_simp
    refine ⟨⟨div_nonneg ha0 hT.le, ?_, div_nonneg hr0 hT.le, ?_⟩, Or.inr ?_⟩
    · rw [div_le_one hT]; linarith
    · rw [div_le_one hT]; linarith
    · rw [hsum]; norm_num
  · push_neg at hn
    by_cases hT : 0 < t.aiScore + t.realScore
    · exact ⟨⟨ha0, ha1, hr0, hr1⟩, Or.inr (hn hT)⟩
    · have h0 : t.aiScore + t.realScore = 0 := le_antisymm (not_lt.mp hT) (by linarith)
      exact ⟨⟨ha0, ha1, hr0, hr1⟩, Or.inl h0⟩

theorem inferComplement_cases (s : ParsedScores) :
    inferComplement s = s ∨
    (s.realScore = 0 ∧ inferComplement s = { aiScore := s.aiScore, realScore := 1 - s.aiScore }) ∨
    (s.aiScore = 0 ∧ inferComplement s = { aiScore := 1 - s.realScore, realScore := s.realScore }) := by
  unfold inferComplement
  split_ifs with h1 h2
  · exact Or.inr (Or.inl ⟨h1.2, rfl⟩)
  · exact Or.inr (Or.inr ⟨h2.2, rfl⟩)
  · exact Or.inl rfl

theorem inferComplement_bounds_sum (s : ParsedScores)
    (hb : 0 ≤ s.aiScore ∧ s.aiScore ≤ 1 ∧ 0 ≤ s.realScore ∧ s.realScore ≤ 1)
    (hsum : s.aiScore + s.realScore = 0 ∨ |s.aiScore + s.realScore - 1| ≤ 1/100) :
    (0 ≤ (inferComplement s).aiScore ∧ (inferComplement s).aiScore ≤ 1 ∧
     0 ≤ (inferComplement s).realScore ∧ (inferComplement s).realScore ≤ 1) ∧
    ((inferComplement s).aiScore + (inferComplement s).realScore = 0 ∨
     |(inferComplement s).aiScore + (inferComplement s).realScore - 1| ≤ 1/100) := by
  obtain ⟨ha0, ha1, hr0, hr1⟩ := hb
  rcases inferComplement_cases s with h | ⟨-, h⟩ | ⟨-, h⟩
  · rw [h]; exact ⟨⟨ha0, ha1, hr0, hr1⟩, hsum⟩
  · rw [h]
    refine ⟨⟨ha0, ha1, by simp; linarith, by simp; linarith⟩, Or.inr ?_⟩
    simp
  · rw [h]
    refine ⟨⟨by simp; linarith, by simp; linarith, hr0, hr1⟩, Or.inr ?_⟩
    simp

theorem one_polarity_ai (t : ParsedScores)
    (hai : 0 < t.aiScore) (hreal : t.realScore = 0) :
    (inferComplement (normalizeTol t)).realScore =
      1 - (inferComplement (normalizeTol t)).aiScore := by
  unfold normalizeTol
  split_ifs with hn
  · have h1 : t.aiScore / (t.aiScore + t.realScore) = 1 := by
      rw [hreal, add_zero]
      field_simp
    have h2 : t.realScore / (t.aiScore + t.realScore) = 0 := by
      rw [hreal]
      simp
    rw [show ({ aiScore := t.aiScore / (t.aiScore + t.realScore),
                realScore := t.realScore / (t.aiScore + t.realScore) } : ParsedScores) =
        { aiScore := 1, realScore := 0 } by rw [h1, h2]]
    unfold inferComplement
    norm_num
  · unfold inferComplement
    rw [if_pos ⟨hai, hreal⟩]

theorem one_polarity_real (t : ParsedScores)
    (hreal : 0 < t.realScore) (hai : t.aiScore = 0) :
    (inferComplement (normalizeTol t)).aiScore =
      1 - (inferComplement (normalizeTol t)).realScore := by
  unfold normalizeTol
  split_ifs with hn
  · have h1 : t.realScore / (t.aiScore + t.realScore) = 1 := by
      rw [hai, zero_add]
      field_simp
    have h2 : t.aiScore / (t.aiScore + t.realScore) = 0 := by
      rw [hai]
      simp
    rw [show ({ aiScore := t.aiScore / (t.aiScore + t.realScore),
                realScore := t.realScore / (t.aiScore + t.realScore) } : ParsedScores) =
        { aiScore := 0, realScore := 1 } by rw [h1, h2]]
    unfold inferComplement
    norm_num
  · unfold inferComplement
    rw [if_neg (by rw [hai]; rintro ⟨h, -⟩; exact lt_irrefl 0 h),
        if_pos ⟨hreal, hai⟩]

/-! Claims. -/

/-- C1: for every integer trust score s in 0..100, the status-tier function
returns verified iff s is at least 80, suspicious iff s is between 50 and 79,
and fake iff s is below 50; the four boundary values behave as stated; and
the status derivation of the contract storeVerification uses the same three
thresholds. -/
theorem C1_status_tiers (s : ℤ) (h0 : 0 ≤ s) (h1 : s ≤ 100) :
    ((determineStatus s = VStatus.verified ↔ 80 ≤ s) ∧
     (determineStatus s = VStatus.suspicious ↔ 50 ≤ s ∧ s < 80) ∧
     (determineStatus s = VStatus.fake ↔ s < 50)) ∧
    determineStatus 80 = VStatus.verified ∧
    determineStatus 79 = VStatus.suspicious ∧
    determineStatus 50 = VStatus.suspicious ∧
    determineStatus 49 = VStatus.fake ∧
    ∀ n : ℕ, (n : ℤ) = s → contractStatusOf n = determineStatus s := by
  refine ⟨⟨?_, ?_, ?_⟩, ?_, ?_, ?_, ?_, ?_⟩
  · unfold determineStatus; split_ifs <;> simp_all
  · unfold determineStatus; split_ifs <;> simp_all
  · unfold determineStatus; split_ifs <;> simp_all
    omega
  · norm_num [determineStatus]
  · norm_num [determineStatus]
  · norm_num [determineStatus]
  · norm_num [determineStatus]
  · intro n hn
    unfold contractStatusOf determineStatus
    split_ifs <;> simp_all <;> omega

/-- Witness for C1 at the boundary score 80. -/
theorem C1_status_tiers_witness :
    determineStatus 80 = VStatus.verified ∧
    contractStatusOf 80 = determineStatus 80 := by
  have h := C1_status_tiers 80 (by norm_num) (by norm_num)
  exact ⟨h.2.1, h.2.2.2.2.2 80 (by norm_num)⟩

/-- C2: the trust-score computation returns the rounded real probability on a
0-100 scale and the confidence 50 plus half the gap between the two
probabilities, scaled to 0-100 and rounded. -/
theorem C2_trust_score_formula (a : ParsedAnalysis) :
    (calculateTrustScore a).score = jround (a.realProbability * 100) ∧
    (calculateTrustScore a).confidence =
      jround (50 + |a.aiProbability - a.realProbability| * 50) :=
  ⟨rfl, rfl⟩

/-- C3: an authorized storeVerification call with score at most 100 appends
exactly one entry carrying the next sequential id, the submitter and the
derived status, increments the count by one and extends the history of the
content hash by the new id; an unauthorized caller or a score above 100
reverts, leaving the state unchanged. -/
theorem C3_store_verification (st : ContractState) (sender : ℕ)
    (ch mh : String) (score ts : ℕ) :
    ((st.authorizedVerifiers sender = true ∨ sender = st.owner) → score ≤ 100 →
      ∃ st2, storeVerification st sender ch score mh ts =
          Except.ok (st2, st.verifications.length) ∧
        getVerificationCount st2 = getVerificationCount st + 1 ∧
        st2.verifications = st.verifications ++
          [{ id := st.verifications.length, contentHash := ch,
             trustScore := score, aiMetadataHash := mh, timestamp := ts,
             status := contractStatusOf score, verifier := sender }] ∧
        st2.contentHistory ch = st.contentHistory ch ++ [st.verifications.length] ∧
        (∀ h2, h2 ≠ ch → st2.contentHistory h2 = st.contentHistory h2) ∧
        st2.owner = st.owner ∧
        st2.authorizedVerifiers = st.authorizedVerifiers) ∧
    ((¬(st.authorizedVerifiers sender = true ∨ sender = st.owner)) ∨ 100 < score →
      ∃ msg, storeVerification st sender ch score mh ts = Except.error msg) := by
  constructor
  · intro hauth hscore
    unfold storeVerification
    rw [if_pos hauth, if_pos hscore]
    refine ⟨_, rfl, by simp [getVerificationCount], rfl, by simp, ?_, rfl, rfl⟩
    intro h2 hne
    simp [hne]
  · intro hbad
    by_cases hauth : st.authorizedVerifiers sender = true ∨ sender = st.owner
    · rcases hbad with hna | hgt
      · exact absurd hauth hna
      · unfold storeVerification
        rw [if_pos hauth, if_neg (by omega)]
        exact ⟨_, rfl⟩
    · unfold storeVerification
      rw [if_neg hauth]
      exact ⟨_, rfl⟩

/-- Witness for C3: the owner of the empty contract state stores one record. -/
theorem C3_store_verification_witness :
    ∃ st2, storeVerification st0 0 "c" 90 "m" 7 = Except.ok (st2, 0) ∧
      getVerificationCount st2 = 1 := by
  obtain ⟨st2, hok, hcount, -, -, -, -, -⟩ :=
    (C3_store_verification st0 0 "c" "m" 90 7).1 (Or.inr rfl) (by norm_num)
  exact ⟨st2, hok, hcount⟩

/-- C8: on a content hash with no prior entry the contract getLatestVerification
reverts, and the adapter read-by-hash path returns null instead of raising. -/
theorem C8_unknown_hash (st : ContractState) (h : String) (b : Bool)
    (hist : st.contentHistory h = []) :
    getLatestVerification st h = Except.error "No history for this content" ∧
    getVerificationByHash b st h = none := by
  have h1 : getLatestVerification st h = Except.error "No history for this content" := by
    unfold getLatestVerification
    simp [hist]
  refine ⟨h1, ?_⟩
  unfold getVerificationByHash
  cases b <;> simp [h1]

/-- Witness for C8 on the empty contract state. -/
theorem C8_unknown_hash_witness :
    getVerificationByHash true st0 "deadbeef" = none :=
  (C8_unknown_hash st0 "deadbeef" true rfl).2

/-- C9: the confidence computation is symmetric under swapping the two
probabilities, bounded between 50 and 100 on complementary pairs, equal to 50
at the balanced pair and equal to 100 at the two extreme pairs. -/
theorem C9_confidence_symmetry (p : ℚ) (h0 : 0 ≤ p) (h1 : p ≤ 1) :
    (calculateTrustScore { aiProbability := p, realProbability := 1 - p }).confidence =
      (calculateTrustScore { aiProbability := 1 - p, realProbability := p }).confidence ∧
    50 ≤ (calculateTrustScore { aiProbability := p, realProbability := 1 - p }).confidence ∧
    (calculateTrustScore { aiProbability := p, realProbability := 1 - p }).confidence ≤ 100 ∧
    (calculateTrustScore { aiProbability := 1/2, realProbability := 1 - (1/2 : ℚ) }).confidence = 50 ∧
    (calculateTrustScore { aiProbability := 0, realProbability := 1 - (0 : ℚ) }).confidence = 100 ∧
    (calculateTrustScore { aiProbability := 1, realProbability := 1 - (1 : ℚ) }).confidence = 100 := by
  have habs : |p - (1 - p)| ≤ 1 := by
    rw [abs_le]
    constructor <;> linarith
  refine ⟨?_, ?_, ?_, ?_, ?_, ?_⟩
  · show jround (50 + |p - (1 - p)| * 50) = jround (50 + |1 - p - p| * 50)
    rw [abs_sub_comm]
  · show (50 : ℤ) ≤ jround (50 + |p - (1 - p)| * 50)
    apply le_jround
    have := abs_nonneg (p - (1 - p))
    push_cast
    nlinarith
  · show jround (50 + |p - (1 - p)| * 50) ≤ (100 : ℤ)
    apply jround_le
    push_cast
    nlinarith
  · show jround (50 + |(1 : ℚ)/2 - (1 - 1/2)| * 50) = 50
    norm_num [jround, Int.floor_eq_iff]
  · show jround (50 + |(0 : ℚ) - (1 - 0)| * 50) = 100
    rw [show |(0 : ℚ) - (1 - 0)| = 1 by norm_num [abs_of_nonpos]]
    norm_num [jround, Int.floor_eq_iff]
  · show jround (50 + |(1 : ℚ) - (1 - 1)| * 50) = 100
    norm_num [jround, Int.floor_eq_iff]

/-- Witness for C9 at the complementary pair one quarter, three quarters. -/
theorem C9_confidence_symmetry_witness :
    50 ≤ (calculateTrustScore
      { aiProbability := 1/4, realProbability := 1 - (1/4 : ℚ) }).confidence :=
  (C9_confidence_symmetry (1/4) (by norm_num) (by norm_num)).2.1

/-- C4 counterexample: a 4-byte buffer sniffed as video/mp4 passes validation
although video/mp4 belongs to no list of image types, so validation failure is
not equivalent to the condition of the claim, which names an allow-list of
supported image types, at this input. -/
theorem C4_counterexample :
    ¬ (((validateFile 4 (some "video/mp4") "video/mp4").valid = false) ↔
        (maxFileSize < 4 ∨ (some "video/mp4" : Option String) = none ∨
          "video/mp4" ∉ imageAllowedMimeTypes)) := by
  decide

/-- C4 amended: validation fails exactly when the buffer exceeds 50 MiB, the
sniffed type cannot be determined, or the sniffed type is outside the
configured allow-list of media types, which lists image, video and audio
formats; the declared type never influences the verdict, so a mismatch
between declared and sniffed type is never by itself a cause of rejection. -/
theorem C4_amended_validation (len : ℕ) (det : Option String) (d1 d2 : String) :
    ((validateFile len det d1).valid = false ↔
      (maxFileSize < len ∨ det = none ∨
        ∃ m, det = some m ∧ m ∉ allowedMimeTypes)) ∧
    validateFile len det d1 = validateFile len det d2 := by
  constructor
  · unfold validateFile
    cases det with
    | none => split_ifs <;> simp_all
    | some m =>
      by_cases hm : m ∈ allowedMimeTypes <;> split_ifs <;> simp_all
  · unfold validateFile
    cases det with
    | none => split_ifs <;> rfl
    | some m => split_ifs <;> rfl

/-- C5: a hard classification failure, an exception escaping the adapter,
moves the pipeline to the errored state, while a missing credential or the
failure of both the primary and the fallback model yields a synthetic result
whose generated aiProbability is the uniform draw scaled into the interval
from 0 inclusive to two fifths exclusive, marked as synthetic, and the
pipeline continues. -/
theorem C5_classification_degradation (env : AIEnv) (e : String)
    (h0 : 0 ≤ env.rand) (h1 : env.rand < 1)
    (hdeg : env.hasApiKey = false ∨
      ∃ m1 m2, env.primary = ModelOutcome.failed m1 ∧
        env.fallback = ModelOutcome.failed m2) :
    classifiedStep (Except.error e) = PipelineState.errored e ∧
    (analyzeImage env).isMock = true ∧
    (analyzeImage env).aiProbability = round2 (env.rand * (2/5)) ∧
    0 ≤ env.rand * (2/5) ∧ env.rand * (2/5) < 2/5 ∧
    classifiedStep (Except.ok (analyzeImage env)) =
      PipelineState.classified (analyzeImage env) := by
  have hmock : ∃ reason, analyzeImage env = generateMockAnalysis reason env.rand := by
    rcases hdeg with hk | ⟨m1, m2, hp, hf⟩
    · exact ⟨"no-api-key", by simp [analyzeImage, hk]⟩
    · by_cases hk : env.hasApiKey = false
      · exact ⟨"no-api-key", by simp [analyzeImage, hk]⟩
      · exact ⟨"fallback-mock", by simp [analyzeImage, hk, hp, hf]⟩
  obtain ⟨reason, hm⟩ := hmock
  refine ⟨rfl, ?_, ?_, mul_nonneg h0 (by norm_num), by nlinarith, rfl⟩
  · rw [hm]; rfl
  · rw [hm]; rfl

/-- Witness for C5 in the environment without a credential. -/
theorem C5_classification_degradation_witness :
    (analyzeImage envW).isMock = true :=
  (C5_classification_degradation envW "err" (by norm_num [envW])
    (by norm_num [envW]) (Or.inl rfl)).2.1

/-- C7: without both the wallet credential and the contract address the
anchoring step substitutes the synthetic proof marked as mock and performs no
attempt; when configured, the state-changing call is retried up to 3 attempts
with backoff delays proportional to the attempt number, a third failure
raising a terminal error. -/
theorem C7_anchor_retry (w a : Bool) (att : ℕ → Except String TxResult)
    (mh : String) (mb : ℕ) (e1 e2 e3 : String) (r : TxResult) :
    (¬(w = true ∧ a = true) →
      anchorStep w a att mh mb = Except.ok (generateMockResult mh mb, []) ∧
      (generateMockResult mh mb).isMock = true) ∧
    (att 1 = Except.error e1 → att 2 = Except.error e2 →
      ((att 3 = Except.ok r →
        anchorStep true true att mh mb =
          Except.ok ({ txHash := r.txHash, blockNumber := r.blockNumber,
                       isMock := false }, [retryDelay * 1, retryDelay * 2])) ∧
       (att 3 = Except.error e3 →
        anchorStep true true att mh mb =
          Except.error ("Blockchain anchoring failed after 3 attempts: " ++ e3)))) ∧
    (att 1 = Except.ok r →
      anchorStep true true att mh mb =
        Except.ok ({ txHash := r.txHash, blockNumber := r.blockNumber,
                     isMock := false }, [])) := by
  refine ⟨?_, ?_, ?_⟩
  · intro hna
    have hb : (w && a) = false := by
      cases w <;> cases a <;> simp_all
    unfold anchorStep
    rw [hb]
    exact ⟨rfl, rfl⟩
  · intro hf1 hf2
    constructor
    · intro h3
      unfold anchorStep anchorVerification
      simp [hf1, hf2, h3]
    · intro h3
      unfold anchorStep anchorVerification
      simp [hf1, hf2, h3]
  · intro h1
    unfold anchorStep anchorVerification
    simp [h1]

/-- Witness for C7: two failed attempts, success on the third, with the two
recorded backoff delays. -/
theorem C7_anchor_retry_witness :
    anchorStep true true attW "m" 7 =
      Except.ok ({ txHash := txW.txHash, blockNumber := txW.blockNumber,
                   isMock := false }, [retryDelay * 1, retryDelay * 2]) :=
  ((C7_anchor_retry true true attW "m" 7 "boom" "boom" "x" txW).2.1
    rfl rfl).1 rfl

/-- C10 counterexample: at the legal draw 999/1000 the published aiProbability
of the mock analysis rounds up to exactly two fifths, so the returned record
does not carry an aiProbability strictly below two fifths. -/
theorem C10_counterexample :
    (0 : ℚ) ≤ 999/1000 ∧ (999/1000 : ℚ) < 1 ∧
    ¬ ((generateMockAnalysis "no-api-key" (999/1000)).aiProbability < 2/5) := by
  refine ⟨by norm_num, by norm_num, ?_⟩
  have h : (generateMockAnalysis "no-api-key" (999/1000)).aiProbability = 2/5 := by
    norm_num [generateMockAnalysis, round2, jround]
  rw [h]
  exact lt_irrefl _

/-- C10 amended: every mock analysis draws a generated aiProbability strictly
below two fifths, publishes its two-decimal rounding, which is at most two
fifths, and therefore reports isAIGenerated false, a trust score of at least
60 and a status tier that is never fake. -/
theorem C10_amended_mock_bounds (reason : String) (r : ℚ)
    (h0 : 0 ≤ r) (h1 : r < 1) :
    0 ≤ r * (2/5) ∧ r * (2/5) < 2/5 ∧
    (generateMockAnalysis reason r).aiProbability = round2 (r * (2/5)) ∧
    (generateMockAnalysis reason r).aiProbability ≤ 2/5 ∧
    (generateMockAnalysis reason r).isAIGenerated = false ∧
    60 ≤ (generateMockAnalysis reason r).trustScore ∧
    (generateMockAnalysis reason r).status ≠ VStatus.fake := by
  have hr0 : 0 ≤ r * (2/5) := mul_nonneg h0 (by norm_num)
  have hr1 : r * (2/5) < 2/5 := by nlinarith
  have h60 : (60 : ℤ) ≤ jround ((1 - r * (2/5)) * 100) := by
    apply le_jround
    push_cast
    nlinarith
  refine ⟨hr0, hr1, rfl, ?_, ?_, h60, ?_⟩
  · show round2 (r * (2/5)) ≤ 2/5
    calc round2 (r * (2/5)) ≤ round2 (2/5) := round2_mono (le_of_lt hr1)
      _ = 2/5 := by norm_num [round2, jround]
  · show decide ((1 : ℚ)/2 < r * (2/5)) = false
    rw [decide_eq_false_iff_not]
    intro hlt
    linarith
  · show determineStatus (jround ((1 - r * (2/5)) * 100)) ≠ VStatus.fake
    unfold determineStatus
    split_ifs <;> simp_all
    omega

/-- Witness for C10 at the draw one half. -/
theorem C10_amended_mock_bounds_witness :
    (generateMockAnalysis "no-api-key" (1/2)).isAIGenerated = false :=
  (C10_amended_mock_bounds "no-api-key" (1/2) (by norm_num)
    (by norm_num)).2.2.2.2.1

/-- C6 counterexample: on a single entry whose label matches neither polarity
the parser publishes the pair zero, zero, which does not sum to 1, so the
claimed sum-to-1 property fails on this list. -/
theorem C6_counterexample :
    (parseClassificationResults [{ label := "cat", score := 1/2 }]).aiProbability +
      (parseClassificationResults [{ label := "cat", score := 1/2 }]).realProbability ≠ 1 := by
  have ha : matchesAny (labelLower "cat") aiKeywords = false := by decide
  have hr : matchesAny (labelLower "cat") realKeywords = false := by decide
  have h1 : scanScores [{ label := "cat", score := 1/2 }] =
      { aiScore := 0, realScore := 0 } := by
    simp [scanScores, scanWith, ha, hr]
  have h2 : parseClassificationResults [{ label := "cat", score := 1/2 }] =
      { aiProbability := 0, realProbability := 0 } := by
    norm_num [parseClassificationResults, parseScoresPre, h1, firstTwoFallback,
      normalizeTol, inferComplement, round2, jround]
  rw [h2]
  norm_num

/-- C6 amended: for every list of classifier label/score results with scores
in the unit interval, the published pair has each component in the unit
interval; the pre-rounding pair either is zero, zero, which happens exactly in
the degenerate no-match cases, or sums to within one hundredth of 1, summing
exactly to 1 whenever the tolerance renormalisation or the complement
inference fired; when only one polarity was matched by the scan the other
pre-rounding probability is its complement; and when no label matched either
polarity and at least two entries came back, the first two entries are taken
as the AI and the real score in that order, a zero score falling back to one
half. -/
theorem C6_amended_parse (results : List LabelScore)
    (hs : ∀ r ∈ results, 0 ≤ r.score ∧ r.score ≤ 1) :
    (0 ≤ (parseClassificationResults results).aiProbability ∧
     (parseClassificationResults results).aiProbability ≤ 1 ∧
     0 ≤ (parseClassificationResults results).realProbability ∧
     (parseClassificationResults results).realProbability ≤ 1) ∧
    ((parseScoresPre results).aiScore + (parseScoresPre results).realScore = 0 ∨
     |(parseScoresPre results).aiScore + (parseScoresPre results).realScore - 1|
       ≤ 1/100) ∧
    ((scanScores results).realScore = 0 → 0 < (scanScores results).aiScore →
      (parseScoresPre results).realScore = 1 - (parseScoresPre results).aiScore) ∧
    ((scanScores results).aiScore = 0 → 0 < (scanScores results).realScore →
      (parseScoresPre results).aiScore = 1 - (parseScoresPre results).realScore) ∧
    ((scanScores results).aiScore = 0 → (scanScores results).realScore = 0 →
      ∀ a b rest, results = a :: b :: rest →
        firstTwoFallback results (scanScores results) =
          { aiScore := jsOr a.score (1/2), realScore := jsOr b.score (1/2) }) := by
  have hscan := scanWith_bounds aiKeywords realKeywords results
    { aiScore := 0, realScore := 0 } hs ⟨le_refl 0, by norm_num, le_refl 0, by norm_num⟩
  have hfb := firstTwoFallback_bounds results (scanScores results) hs hscan
  have hnt := normalizeTol_bounds_sum (firstTwoFallback results (scanScores results)) hfb
  have hpost := inferComplement_bounds_sum
    (normalizeTol (firstTwoFallback results (scanScores results))) hnt.1 hnt.2
  refine ⟨⟨?_, ?_, ?_, ?_⟩, hpost.2, ?_, ?_, ?_⟩
  · exact round2_nonneg hpost.1.1
  · exact round2_le_one hpost.1.2.1
  · exact round2_nonneg hpost.1.2.2.1
  · exact round2_le_one hpost.1.2.2.2
  · intro hr0 hapos
    have hid : firstTwoFallback results (scanScores results) = scanScores results := by
      unfold firstTwoFallback
      rw [if_neg]
      rintro ⟨hA, -, -⟩
      rw [hA] at hapos
      exact lt_irrefl 0 hapos
    show (inferComplement (normalizeTol (firstTwoFallback results (scanScores results)))).realScore =
      1 - (inferComplement (normalizeTol (firstTwoFallback results (scanScores results)))).aiScore
    rw [hid]
    exact one_polarity_ai (scanScores results) hapos hr0
  · intro ha0 hrpos
    have hid : firstTwoFallback results (scanScores results) = scanScores results := by
      unfold firstTwoFallback
      rw [if_neg]
      rintro ⟨-, hR, -⟩
      rw [hR] at hrpos
      exact lt_irrefl 0 hrpos
    show (inferComplement (normalizeTol (firstTwoFallback results (scanScores results)))).aiScore =
      1 - (inferComplement (normalizeTol (firstTwoFallback results (scanScores results)))).realScore
    rw [hid]
    exact one_polarity_real (scanScores results) hrpos ha0
  · intro ha0 hr0 a b rest hres
    unfold firstTwoFallback
    rw [if_pos ⟨ha0, hr0, by rw [hres]; simp⟩]
    rw [hres]
    simp only [List.getD_cons_zero, List.getD_cons_succ]

/-- Witness for C6 on a two-entry list carrying both polarities. -/
theorem C6_amended_parse_witness :
    0 ≤ (parseClassificationResults resW).aiProbability :=
  (C6_amended_parse resW (by norm_num [resW])).1.1

end DeepTrust
